import Mathlib

/-!
Verification of the Vision-Capable Model Abstraction & Dispatch Layer
(`deepdoc/depend/simple_cv_model.py`) against its natural-language
specification.  The Python module is shallowly embedded: each method is
a pure Lean function, the transport/backend call being abstracted as an
explicit `Except String _` argument (ok = the wire response, error = the
exception message raised by the call), and in-place mutation of the
caller's conversation list being returned functionally.
-/

/-- Image payloads accepted by `Base.image2base64` (source lines 48-58):
an in-memory `BytesIO` buffer carrying its current read position, a raw
`bytes` value, or a decoded `PIL.Image` object (which the code rejects). -/
inductive ImageInput where
  | buffer (data : List Nat) (pos : Nat)
  | rawBytes (data : List Nat)
  | pilImage (data : List Nat)
deriving DecidableEq

/-- Standard base64 alphabet, modelling Python's `base64.b64encode`. -/
def base64Chars : List Char :=
  "ABCDEFGHIJKLMNOPQRSTUVWXYZabcdefghijklmnopqrstuvwxyz0123456789+/".data

/-- Character of the base64 alphabet at a 6-bit index. -/
def b64char (n : Nat) : Char := base64Chars.getD n 'A'

/-- RFC 4648 base64 encoding of a byte list, three bytes at a time. -/
def b64encodeChunks : List Nat → List Char
  | [] => []
  | [a] => [b64char (a / 4), b64char (a % 4 * 16), '=', '=']
  | [a, b] => [b64char (a / 4), b64char (a % 4 * 16 + b / 16), b64char (b % 16 * 4), '=']
  | a :: b :: c :: rest =>
      b64char (a / 4) :: b64char (a % 4 * 16 + b / 16) ::
      b64char (b % 16 * 4 + c / 64) :: b64char (c % 64) :: b64encodeChunks rest

/-- Base64 encoding as a string, as returned by
`base64.b64encode(img_data).decode('utf-8')`. -/
def b64encode (bs : List Nat) : String := ⟨b64encodeChunks bs⟩

/-- `Base.image2base64` (source lines 48-58): a `BytesIO` buffer is
`seek(0)`-reset and fully read, raw bytes are used directly, and any
other input (for example a decoded `PIL.Image`) raises
`ValueError("binary must be BytesIO or bytes")`. -/
def image2base64 : ImageInput → Except String String
  | ImageInput.buffer data _ => Except.ok (b64encode data)
  | ImageInput.rawBytes data => Except.ok (b64encode data)
  | ImageInput.pilImage _ => Except.error "binary must be BytesIO or bytes"

/-- Dynamically-typed Python values relevant to the prompt-indexing code
path of `OllamaCV.describe`: strings, lists, string-keyed dicts, and
function objects (such as the imported `vision_llm_describe_prompt`). -/
inductive PyVal where
  | str (s : String)
  | pyList (xs : List PyVal)
  | pyDict (kvs : List (String × PyVal))
  | func

/-- Python subscripting `v[i]` with an integer index. Strings index to
one-character strings, lists to their elements; dicts miss the integer
key; function objects are not subscriptable. -/
def subscriptNat : PyVal → Nat → Except String PyVal
  | PyVal.str s, i =>
      match s.data.get? i with
      | some c => Except.ok (PyVal.str (String.singleton c))
      | none => Except.error "IndexError: string index out of range"
  | PyVal.pyList xs, i =>
      match xs.get? i with
      | some v => Except.ok v
      | none => Except.error "IndexError: list index out of range"
  | PyVal.pyDict _, _ => Except.error "KeyError: 0"
  | PyVal.func, _ => Except.error "TypeError: 'function' object is not subscriptable"

/-- Python subscripting `v[k]` with a string key. Only dicts support it;
string indices must be integers; functions are not subscriptable. -/
def subscriptKey : PyVal → String → Except String PyVal
  | PyVal.str _, _ => Except.error "TypeError: string indices must be integers"
  | PyVal.pyList _, _ => Except.error "TypeError: list indices must be integers or slices, not str"
  | PyVal.pyDict kvs, k =>
      match kvs.lookup k with
      | some v => Except.ok v
      | none => Except.error ("KeyError: " ++ k)
  | PyVal.func, _ => Except.error "TypeError: 'function' object is not subscriptable"

/-- Python's `str.lower()` as used on language and provider strings
(ASCII in all registry keys and language names). -/
def pyLower (s : String) : String := ⟨s.data.map Char.toLower⟩

/-- `Base.vision_llm_prompt` (source lines 64-71): for a Chinese
language setting the module-level name `vision_llm_describe_prompt` is
returned, which `prompts.py` binds to a *function object*; otherwise the
fixed English fallback string.  (Had the `prompts` import failed, the
Chinese value would be the fallback prompt *string*; either value fails
the subscripting in `OllamaCV.describe` the same way.) -/
def vision_llm_prompt (lang : String) : PyVal :=
  if pyLower lang = "chinese" then PyVal.func
  else PyVal.str "Please describe this image in detail."

/-- The indexing expression `prompt[0]["content"][1]["text"]` evaluated
inside the `try` block of `OllamaCV.describe` (source line 214). -/
def promptIndexChain (p : PyVal) : Except String PyVal :=
  match subscriptNat p 0 with
  | Except.error e => Except.error e
  | Except.ok a =>
      match subscriptKey a "content" with
      | Except.error e => Except.error e
      | Except.ok b =>
          match subscriptNat b 1 with
          | Except.error e => Except.error e
          | Except.ok c => subscriptKey c "text"

/-- Runtime shape of a non-streaming operation's return value: the
`(text, usage)` pair produced by `OllamaCV`, or the bare text string
produced by the other backend variants. -/
inductive CVResult where
  | pair (text : String) (usage : Nat)
  | textOnly (text : String)
deriving DecidableEq

/-- Whether a result is a `(text, usage)` pair. -/
def CVResult.isPair : CVResult → Bool
  | CVResult.pair _ _ => true
  | CVResult.textOnly _ => false

/-- The text component of a result. -/
def CVResult.textOf : CVResult → String
  | CVResult.pair t _ => t
  | CVResult.textOnly t => t

/-- The usage component of a result, when the result is a pair. -/
def CVResult.usageOf : CVResult → Option Nat
  | CVResult.pair _ u => some u
  | CVResult.textOnly _ => none

/-- `GptV4.describe_with_prompt` (source lines 81-112): encodes the
image, performs the completion call (abstracted as `backend`), and
returns the stripped content as a bare string; any exception inside the
`try` block — including the `ValueError` from `image2base64` — is
converted to the bare sentinel string `"**ERROR**: " + cause`. -/
def GptV4_describe_with_prompt (image : ImageInput) (backend : Except String String) : CVResult :=
  match image2base64 image with
  | Except.error e => CVResult.textOnly ("**ERROR**: " ++ e)
  | Except.ok _ =>
      match backend with
      | Except.error e => CVResult.textOnly ("**ERROR**: " ++ e)
      | Except.ok content => CVResult.textOnly content.trim

/-- `QWenCV.describe_with_prompt` (source lines 126-157): body identical
to `GptV4.describe_with_prompt` up to the transport endpoint. -/
def QWenCV_describe_with_prompt : ImageInput → Except String String → CVResult :=
  GptV4_describe_with_prompt

/-- `Zhipu4V.describe_with_prompt` (source lines 167-196): body
identical to `GptV4.describe_with_prompt` up to the client used. -/
def Zhipu4V_describe_with_prompt : ImageInput → Except String String → CVResult :=
  GptV4_describe_with_prompt

/-- `AnthropicCV.describe_with_prompt` (source lines 339-370): body
identical to `GptV4.describe_with_prompt` up to the wire format. -/
def AnthropicCV_describe_with_prompt : ImageInput → Except String String → CVResult :=
  GptV4_describe_with_prompt

/-- `GeminiCV.describe_with_prompt` (source lines 308-328): decodes the
image itself inside the `try` block, raising
`ValueError("image must be BytesIO or bytes")` for anything that is not
a buffer or raw bytes, and returns the stripped text as a bare string;
exceptions become the bare sentinel string. -/
def GeminiCV_describe_with_prompt (image : ImageInput) (backend : Except String String) : CVResult :=
  match image with
  | ImageInput.pilImage _ => CVResult.textOnly ("**ERROR**: " ++ "image must be BytesIO or bytes")
  | _ =>
      match backend with
      | Except.error e => CVResult.textOnly ("**ERROR**: " ++ e)
      | Except.ok t => CVResult.textOnly t.trim

/-- `OllamaCV.describe` (source lines 209-220): builds
`prompt = self.prompt("")` (a function object or a plain string), then
inside the `try` block evaluates `prompt[0]["content"][1]["text"]` and
calls `client.generate` (abstracted as `backend`); success returns
`(stripped response, 128)`, any exception returns
`("**ERROR**: " + cause, 0)`. -/
def OllamaCV_describe (lang image : String) (backend : Except String String) : CVResult :=
  match promptIndexChain (vision_llm_prompt lang) with
  | Except.error e => CVResult.pair ("**ERROR**: " ++ e) 0
  | Except.ok _ =>
      match backend with
      | Except.error e => CVResult.pair ("**ERROR**: " ++ e) 0
      | Except.ok resp => CVResult.pair resp.trim 128

/-- `OllamaCV.describe_with_prompt` (source lines 222-233): when the
caller supplies a truthy prompt, the code calls
`self.vision_llm_prompt("", prompt)` *before* the `try` block — a call
with one positional argument too many, so a `TypeError` propagates to
the caller (modelled as `Except.error`).  Otherwise it proceeds exactly
as `OllamaCV.describe`. -/
def OllamaCV_describe_with_prompt (lang : String) (prompt : Option String) (image : String)
    (backend : Except String String) : Except String CVResult :=
  if prompt.getD "" = "" then
    Except.ok
      (match promptIndexChain (vision_llm_prompt lang) with
       | Except.error e => CVResult.pair ("**ERROR**: " ++ e) 0
       | Except.ok _ =>
           match backend with
           | Except.error e => CVResult.pair ("**ERROR**: " ++ e) 0
           | Except.ok resp => CVResult.pair resp.trim 128)
  else
    Except.error "TypeError: vision_llm_prompt() takes 2 positional arguments but 3 were given"

/-- Role of a conversation turn. -/
inductive Role where
  | user
  | assistant
  | system
deriving DecidableEq

/-- A conversation turn as handled by `OllamaCV.chat` /
`OllamaCV.chat_streamly`: a role, a content string, and the optional
`"images"` entry the code may inject. -/
structure Turn where
  role : Role
  content : String
  images : Option (List String)
deriving DecidableEq

/-- The last turn with its content replaced by
`system + content + "user query: " + content`
(source lines 236-237 and 265-266). -/
def updLastContent (system : String) (t : Turn) : Turn :=
  ⟨t.role, system ++ t.content ++ "user query: " ++ t.content, t.images⟩

/-- The assignment `history[-1]["content"] = ...` as a functional update
of the last list element. -/
def rewriteLast (system : String) (history : List Turn) : List Turn :=
  history.dropLast ++
    (match history.getLast? with
     | none => []
     | some t => [updLastContent system t])

/-- The system-prompt step of `OllamaCV.chat` / `chat_streamly`: with a
truthy (non-empty) system prompt the last turn of the history — whatever
its role — is rewritten; with an empty history this indexing raises an
uncaught `IndexError`; an empty system prompt leaves the history
untouched. -/
def applySystem (system : String) (history : List Turn) : Except String (List Turn) :=
  if system = "" then Except.ok history
  else if history.isEmpty then Except.error "IndexError: list index out of range"
  else Except.ok (rewriteLast system history)

/-- The attachment loop of `OllamaCV.chat` / `chat_streamly`
(source lines 240-242 and 268-270): *every* turn whose role is `"user"`
gets `his["images"] = [image]`. -/
def applyImages (image : String) (history : List Turn) : List Turn :=
  history.map (fun t => if t.role = Role.user then ⟨t.role, t.content, some [image]⟩ else t)

/-- Wire response of a non-streaming `client.chat` call: the message
content plus the two token counts, either of which the server may omit. -/
structure OllamaChatResponse where
  content : String
  eval_count : Option Nat
  prompt_eval_count : Option Nat
deriving DecidableEq

/-- `OllamaCV.chat` (source lines 235-262): the system rewrite runs
*before* the `try` block (its `IndexError` propagates); the image
attachment and the backend call sit inside it.  Success returns
`(stripped content, response["eval_count"] + response.get("prompt_eval_count", 0))`
— a missing `eval_count` raises a `KeyError` that the `except` converts
to the sentinel pair, as it does any transport exception.  The history
actually sent downstream (the caller's list, mutated in place) is
returned alongside the result. -/
def OllamaCV_chat (system : String) (history : List Turn) (image : String)
    (backend : Except String OllamaChatResponse) : Except String (List Turn × CVResult) :=
  match applySystem system history with
  | Except.error e => Except.error e
  | Except.ok h1 =>
      let h2 := applyImages image h1
      match backend with
      | Except.error e => Except.ok (h2, CVResult.pair ("**ERROR**: " ++ e) 0)
      | Except.ok r =>
          match r.eval_count with
          | none => Except.ok (h2, CVResult.pair ("**ERROR**: " ++ "'eval_count'") 0)
          | some ec => Except.ok (h2, CVResult.pair r.content.trim (ec + r.prompt_eval_count.getD 0))

/-- One chunk of a streaming `client.chat` response: the done flag, the
chunk text `resp["message"]["content"]`, and the two token counts the
final chunk may carry. -/
structure Chunk where
  done : Bool
  text : String
  prompt_eval_count : Option Nat
  eval_count : Option Nat
deriving DecidableEq

/-- An event yielded by `OllamaCV.chat_streamly`: a cumulative-text
event or an integer (usage or terminal) event. -/
inductive StreamEvent where
  | text (s : String)
  | int (n : Nat)
deriving DecidableEq

/-- The generator loop of `OllamaCV.chat_streamly` (source lines
280-296), with `acc` the running buffer `ans`: for each chunk, if
`resp["done"]` first yield `resp.get("prompt_eval_count", 0) +
resp.get("eval_count", 0)`, then append the chunk text to the buffer and
yield the whole buffer; when the backend iterator raises (`err`), yield
`ans + "\n**ERROR**: " + cause`; after the `try` block, yield `0`. -/
def streamGo : String → List Chunk → Option String → List StreamEvent
  | _, [], none => [StreamEvent.int 0]
  | acc, [], some e => [StreamEvent.text (acc ++ "\n**ERROR**: " ++ e), StreamEvent.int 0]
  | acc, c :: rest, err =>
      (if c.done then [StreamEvent.int (c.prompt_eval_count.getD 0 + c.eval_count.getD 0)] else [])
      ++ StreamEvent.text (acc ++ c.text) :: streamGo (acc ++ c.text) rest err

/-- Full event sequence produced by `OllamaCV.chat_streamly` for a
backend that delivers `chunks` and then either finishes normally
(`err = none`) or raises (`err = some cause`). -/
def chatStreamlyEvents (chunks : List Chunk) (err : Option String) : List StreamEvent :=
  streamGo "" chunks err

/-- The cumulative-text events of a chunk list (no usage events),
starting from buffer `acc`. -/
def cumEvents : String → List Chunk → List StreamEvent
  | _, [] => []
  | acc, c :: rest => StreamEvent.text (acc ++ c.text) :: cumEvents (acc ++ c.text) rest

/-- The per-chunk events of a chunk list (usage events included),
starting from buffer `acc`. -/
def midEvents : String → List Chunk → List StreamEvent
  | _, [] => []
  | acc, c :: rest =>
      (if c.done then [StreamEvent.int (c.prompt_eval_count.getD 0 + c.eval_count.getD 0)] else [])
      ++ StreamEvent.text (acc ++ c.text) :: midEvents (acc ++ c.text) rest

/-- The buffer accumulated after consuming a chunk list, starting from
`acc`. -/
def streamBuffer : String → List Chunk → String
  | acc, [] => acc
  | acc, c :: rest => streamBuffer (acc ++ c.text) rest

/-- `OllamaCV.chat_streamly` (source lines 264-296): the system rewrite
and the image-attachment loop run before the `try` block (an
`IndexError` from an empty history propagates); the generator then
yields the event sequence of `chatStreamlyEvents`.  The mutated history
sent downstream is returned alongside the events. -/
def OllamaCV_chat_streamly (system : String) (history : List Turn) (image : String)
    (chunks : List Chunk) (err : Option String) : Except String (List Turn × List StreamEvent) :=
  match applySystem system history with
  | Except.error e => Except.error e
  | Except.ok h1 => Except.ok (applyImages image h1, chatStreamlyEvents chunks err)

/-- The backend variants registered in `VisionModelFactory._PROVIDERS`
(source lines 376-383). -/
inductive Variant where
  | gptV4
  | qwenCV
  | zhipu4V
  | ollamaCV
  | geminiCV
  | anthropicCV
deriving DecidableEq

/-- The four operations of the capability contract (spec section 4.1). -/
inductive ContractOp where
  | describe
  | describeWithPrompt
  | chat
  | chatStreamly
deriving DecidableEq

/-- The contract operations each backend class actually defines (`Base`
defines none of the four): `OllamaCV` (source lines 199-296) defines all
four; `GptV4`, `QWenCV`, `Zhipu4V`, `GeminiCV` and `AnthropicCV` each
define only `describe_with_prompt`. -/
def exposedOps : Variant → List ContractOp
  | Variant.ollamaCV =>
      [ContractOp.describe, ContractOp.describeWithPrompt, ContractOp.chat, ContractOp.chatStreamly]
  | _ => [ContractOp.describeWithPrompt]

/-- The registry `VisionModelFactory._PROVIDERS` as a lookup from
provider identifier to backend variant. -/
def providerVariant : String → Option Variant
  | "openai" => some Variant.gptV4
  | "qwen" => some Variant.qwenCV
  | "zhipu" => some Variant.zhipu4V
  | "ollama" => some Variant.ollamaCV
  | "gemini" => some Variant.geminiCV
  | "anthropic" => some Variant.anthropicCV
  | _ => none

/-- The keys of `VisionModelFactory._PROVIDERS`, in source order. -/
def registryProviders : List String :=
  ["openai", "qwen", "zhipu", "ollama", "gemini", "anthropic"]

/-- The default model name the factory's `if not model_name` chain
(source lines 400-410) supplies per provider — it has *no* branch for
`"ollama"`, so an unset ollama model name stays `""`. -/
def factoryDefaultModelName : String → String
  | "openai" => "gpt-4-vision-preview"
  | "qwen" => "qwen-vl-max"
  | "zhipu" => "glm-4v"
  | "gemini" => "gemini-pro-vision"
  | "anthropic" => "claude-3-sonnet-20240229"
  | _ => ""

/-- The default value of the `model_name` parameter in each backend
class constructor — the documented per-provider default.  `OllamaCV`'s
constructor (source line 202) takes `model_name` as a required parameter
with *no* default. -/
def ctorDefaultModelName : String → Option String
  | "openai" => some "gpt-4-vision-preview"
  | "qwen" => some "qwen-vl-max"
  | "zhipu" => some "glm-4v"
  | "gemini" => some "gemini-pro-vision"
  | "anthropic" => some "claude-3-sonnet-20240229"
  | _ => none

/-- A configuration dict as consumed by
`VisionModelFactory.create_model`; `none` models an absent key. -/
structure Config where
  provider : Option String
  model_name : Option String
  api_key : Option String
  lang : Option String
  base_url : Option String
deriving DecidableEq

/-- A constructed backend instance: its variant and the attributes its
constructor stores.  `OllamaCV.__init__` does not call
`super().__init__` and stores no `key`; `host` is the ollama client
host (other variants ignore `base_url` via `**kwargs`). -/
structure ModelInstance where
  variant : Variant
  key : String
  model_name : String
  lang : String
  host : String
deriving DecidableEq

/-- Construction step of the factory: `model_class(api_key, model_name,
**kwargs)`.  `OllamaCV.__init__` raises `ImportError` when the ollama
client is not installed, and defaults its host to
`http://localhost:11434` when no `base_url` was passed. -/
def constructVariant (ollamaAvailable : Bool) (v : Variant)
    (api_key model_name lang base_url : String) : Except String ModelInstance :=
  match v with
  | Variant.ollamaCV =>
      if ollamaAvailable then
        Except.ok ⟨v, "", model_name, lang,
          if base_url = "" then "http://localhost:11434" else base_url⟩
      else Except.error "Ollama客户端未安装，请运行: pip install ollama"
  | w => Except.ok ⟨w, api_key, model_name, lang, ""⟩

/-- `VisionModelFactory.create_model` (source lines 385-416): reads the
config with defaults (`provider` defaulting to `"openai"`, lowercased),
raises `ValueError("不支持的提供商: " + provider)` for an unregistered
provider, applies `factoryDefaultModelName` when the model name is
unset, and constructs the instance. -/
def createModel (ollamaAvailable : Bool) (config : Config) : Except String ModelInstance :=
  match providerVariant (pyLower (config.provider.getD "openai")) with
  | none => Except.error ("不支持的提供商: " ++ pyLower (config.provider.getD "openai"))
  | some v =>
      constructVariant ollamaAvailable v
        (config.api_key.getD "")
        (if config.model_name.getD "" = "" then
           factoryDefaultModelName (pyLower (config.provider.getD "openai"))
         else config.model_name.getD "")
        (config.lang.getD "Chinese")
        (config.base_url.getD "")

theorem streamGo_error (e : String) :
    ∀ (cs : List Chunk) (acc : String),
      streamGo acc cs (some e) =
        midEvents acc cs ++
          [StreamEvent.text (streamBuffer acc cs ++ "\n**ERROR**: " ++ e), StreamEvent.int 0] := by
  intro cs
  induction cs with
  | nil => intro acc; rfl
  | cons c rest ih =>
      intro acc
      simp [streamGo, midEvents, streamBuffer, ih (acc ++ c.text)]

theorem streamGo_done (d : Chunk) (hd : d.done = true) :
    ∀ (ms : List Chunk) (acc : String), (∀ c ∈ ms, c.done = false) →
      streamGo acc (ms ++ [d]) none =
        cumEvents acc ms ++
          [StreamEvent.int (d.prompt_eval_count.getD 0 + d.eval_count.getD 0),
           StreamEvent.text (streamBuffer acc ms ++ d.text), StreamEvent.int 0] := by
  intro ms
  induction ms with
  | nil =>
      intro acc _
      simp [streamGo, cumEvents, streamBuffer, hd]
  | cons c rest ih =>
      intro acc hms
      have hc : c.done = false := hms c (List.mem_cons_self c rest)
      have hrest : ∀ x ∈ rest, x.done = false := fun x hx => hms x (List.mem_cons_of_mem c hx)
      simp [streamGo, cumEvents, streamBuffer, hc, ih (acc ++ c.text) hrest]

/-- C1: for a chunk sequence in which exactly the last chunk is marked
done, `OllamaCV.chat_streamly` yields one cumulative-text event per
non-final chunk carrying the full buffer so far, then — for the done
chunk, before its text is applied — one integer usage event equal to
`prompt_eval_count + eval_count` (missing sub-counts treated as 0), then
one more cumulative-text event reflecting the done chunk's text, then
exactly one terminal integer event `0` as the last event; the history
argument plays no part in the event sequence. -/
theorem C1_streaming_order (ms : List Chunk) (d : Chunk)
    (hms : ∀ c ∈ ms, c.done = false) (hd : d.done = true) :
    chatStreamlyEvents (ms ++ [d]) none =
      cumEvents "" ms ++
        [StreamEvent.int (d.prompt_eval_count.getD 0 + d.eval_count.getD 0),
         StreamEvent.text (streamBuffer "" ms ++ d.text), StreamEvent.int 0] ∧
    ∀ hist image : _, OllamaCV_chat_streamly "" hist image (ms ++ [d]) none =
      Except.ok (applyImages image hist, chatStreamlyEvents (ms ++ [d]) none) := by
  refine ⟨streamGo_done d hd ms "" hms, ?_⟩
  intro hist image
  rfl

/-- C1 witness: the spec's concrete run — chunks `["Hel", "lo"]` then a
done chunk with `prompt_eval_count = 3`, `eval_count = 2` and empty text
yield `text("Hel")`, `text("Hello")`, `int(5)`, `text("Hello")`,
`int(0)`. -/
theorem C1_streaming_order_witness :
    chatStreamlyEvents
        [⟨false, "Hel", none, none⟩, ⟨false, "lo", none, none⟩, ⟨true, "", some 3, some 2⟩] none =
      [StreamEvent.text "Hel", StreamEvent.text "Hello", StreamEvent.int 5,
       StreamEvent.text "Hello", StreamEvent.int 0] :=
  ((C1_streaming_order [⟨false, "Hel", none, none⟩, ⟨false, "lo", none, none⟩]
      ⟨true, "", some 3, some 2⟩ (by decide) rfl).1).trans (by decide)

/-- C2: when the backend chunk iterator raises after delivering `cs`
(buffer so far `streamBuffer "" cs`), `OllamaCV.chat_streamly` does not
propagate the exception: its last two events are the cumulative-text
event `buffer + "\n**ERROR**: " + cause` followed by the terminal
integer event `0`; in particular a backend that emits `"Hel"` and then
raises yields `text("Hel")`, `text("Hel\n**ERROR**: cause")`, `int(0)`. -/
theorem C2_stream_exception (cs : List Chunk) (e : String) :
    chatStreamlyEvents cs (some e) =
      midEvents "" cs ++
        [StreamEvent.text (streamBuffer "" cs ++ "\n**ERROR**: " ++ e), StreamEvent.int 0] ∧
    chatStreamlyEvents [⟨false, "Hel", none, none⟩] (some "cause") =
      [StreamEvent.text "Hel", StreamEvent.text "Hel\n**ERROR**: cause", StreamEvent.int 0] :=
  ⟨streamGo_error e cs "", by decide⟩

theorem promptIndexChain_fails (lang : String) :
    promptIndexChain (vision_llm_prompt lang) =
      Except.error (if pyLower lang = "chinese"
        then "TypeError: 'function' object is not subscriptable"
        else "TypeError: string indices must be integers") := by
  unfold vision_llm_prompt
  by_cases hl : pyLower lang = "chinese"
  · rw [if_pos hl, if_pos hl]
    rfl
  · rw [if_neg hl, if_neg hl]
    rfl

/-- C10: `Base.vision_llm_prompt` returns a plain (non-list) value — the
`vision_llm_describe_prompt` function object for Chinese, a plain string
otherwise — yet `OllamaCV.describe` indexes it as
`prompt[0]["content"][1]["text"]`, which raises a `TypeError` inside the
`try` block on every call; so for every image input and every backend
outcome, `describe` returns the sentinel pair `("**ERROR**: " + cause, 0)`
and never a successful description. -/
theorem C10_describe_always_error (lang image : String) (backend : Except String String) :
    ∃ m, OllamaCV_describe lang image backend = CVResult.pair ("**ERROR**: " ++ m) 0 := by
  refine ⟨if pyLower lang = "chinese" then "TypeError: 'function' object is not subscriptable"
          else "TypeError: string indices must be integers", ?_⟩
  unfold OllamaCV_describe
  rw [promptIndexChain_fails lang]

/-- C3 counterexample: at the concrete input below, the claim "every
backend variant returns a pair whose text begins with the marker and
whose usage count is 0" is false — `GptV4.describe_with_prompt` returns
the bare sentinel *string*, not a pair, and
`OllamaCV.describe_with_prompt` with an explicit prompt propagates a
`TypeError` raised before its `try` block instead of returning at all. -/
theorem C3_cex_result_shape :
    CVResult.isPair (GptV4_describe_with_prompt (ImageInput.rawBytes []) (Except.error "boom")) =
      false ∧
    GptV4_describe_with_prompt (ImageInput.rawBytes []) (Except.error "boom") =
      CVResult.textOnly ("**ERROR**: " ++ "boom") ∧
    OllamaCV_describe_with_prompt "Chinese" (some "p") "" (Except.ok "resp") =
      Except.error "TypeError: vision_llm_prompt() takes 2 positional arguments but 3 were given" :=
  ⟨rfl, rfl, rfl⟩

/-- C3 amended: for every exception raised during the backend call, the
text produced begins with the literal marker; `OllamaCV`'s operations
return it as a `(text, 0)` pair, while the five other variants'
`describe_with_prompt` returns it as a bare string with no usage count
(and `OllamaCV.describe_with_prompt` only reaches its handler when no
explicit prompt was passed). -/
theorem C3_sentinel_amended (img : ImageInput) (cause lang : String) (hist : List Turn) :
    (∃ m, (GptV4_describe_with_prompt img (Except.error cause)) =
        CVResult.textOnly ("**ERROR**: " ++ m)) ∧
    (∃ m, (QWenCV_describe_with_prompt img (Except.error cause)) =
        CVResult.textOnly ("**ERROR**: " ++ m)) ∧
    (∃ m, (Zhipu4V_describe_with_prompt img (Except.error cause)) =
        CVResult.textOnly ("**ERROR**: " ++ m)) ∧
    (∃ m, (GeminiCV_describe_with_prompt img (Except.error cause)) =
        CVResult.textOnly ("**ERROR**: " ++ m)) ∧
    (∃ m, (AnthropicCV_describe_with_prompt img (Except.error cause)) =
        CVResult.textOnly ("**ERROR**: " ++ m)) ∧
    (∃ m, OllamaCV_describe lang "" (Except.error cause) =
        CVResult.pair ("**ERROR**: " ++ m) 0) ∧
    (∃ m, OllamaCV_describe_with_prompt lang none "" (Except.error cause) =
        Except.ok (CVResult.pair ("**ERROR**: " ++ m) 0)) ∧
    OllamaCV_chat "" hist "" (Except.error cause) =
      Except.ok (applyImages "" hist, CVResult.pair ("**ERROR**: " ++ cause) 0) := by
  have hGpt : ∃ m, (GptV4_describe_with_prompt img (Except.error cause)) =
      CVResult.textOnly ("**ERROR**: " ++ m) := by
    cases h : image2base64 img with
    | error e => exact ⟨e, by simp [GptV4_describe_with_prompt, h]⟩
    | ok b => exact ⟨cause, by simp [GptV4_describe_with_prompt, h]⟩
  have hGem : ∃ m, (GeminiCV_describe_with_prompt img (Except.error cause)) =
      CVResult.textOnly ("**ERROR**: " ++ m) := by
    cases img with
    | buffer d p => exact ⟨cause, rfl⟩
    | rawBytes d => exact ⟨cause, rfl⟩
    | pilImage d => exact ⟨"image must be BytesIO or bytes", rfl⟩
  have hOD : ∃ m, OllamaCV_describe lang "" (Except.error cause) =
      CVResult.pair ("**ERROR**: " ++ m) 0 := by
    refine ⟨if pyLower lang = "chinese" then "TypeError: 'function' object is not subscriptable"
            else "TypeError: string indices must be integers", ?_⟩
    unfold OllamaCV_describe
    rw [promptIndexChain_fails lang]
  have hODP : ∃ m, OllamaCV_describe_with_prompt lang none "" (Except.error cause) =
      Except.ok (CVResult.pair ("**ERROR**: " ++ m) 0) := by
    refine ⟨if pyLower lang = "chinese" then "TypeError: 'function' object is not subscriptable"
            else "TypeError: string indices must be integers", ?_⟩
    unfold OllamaCV_describe_with_prompt
    rw [promptIndexChain_fails lang]
    rfl
  exact ⟨hGpt, hGpt, hGpt, hGem, hGpt, hOD, hODP, rfl⟩

/-- C4 counterexample: for the unregistered provider `"foo"`,
`VisionModelFactory.create_model` raises
`ValueError("不支持的提供商: foo")` — a message that does *not*
enumerate the registered identifiers (for example `"openai"` does not
occur in it). -/
theorem C4_cex_message :
    createModel true ⟨some "foo", none, none, none, none⟩ =
      Except.error "不支持的提供商: foo" ∧
    ¬ ("openai".data <:+: "不支持的提供商: foo".data) :=
  ⟨rfl, by decide⟩

/-- C4 amended: for every provider identifier whose lowercasing is not a
registry key, `create_model` fails with the descriptive error
`"不支持的提供商: " + provider`, which names the offending provider but
does not enumerate the registered identifiers (that enumeration appears
only in `create_vision_model`'s invalid-string-config error). -/
theorem C4_unknown_provider (p : String) (av : Bool)
    (h : providerVariant (pyLower p) = none) :
    createModel av ⟨some p, none, none, none, none⟩ =
      Except.error ("不支持的提供商: " ++ pyLower p) := by
  unfold createModel
  simp [Option.getD, h]

/-- C4 witness: the amended claim at the concrete provider `"foo"`. -/
theorem C4_unknown_provider_witness :
    createModel true ⟨some "foo", none, none, none, none⟩ =
      Except.error ("不支持的提供商: " ++ pyLower "foo") :=
  C4_unknown_provider "foo" true (by decide)

/-- C5 counterexample: the minimal config `{"provider": "ollama"}`
produces an instance whose `model_name` is the empty string, while
`OllamaCV.__init__` documents no default model identifier at all (its
`model_name` parameter has no default value), so the claim fails at the
registered provider `"ollama"`. -/
theorem C5_cex_ollama_default :
    (createModel true ⟨some "ollama", none, none, none, none⟩).map ModelInstance.model_name =
      Except.ok "" ∧
    ctorDefaultModelName "ollama" = none :=
  ⟨rfl, rfl⟩

/-- C5 amended: for the five providers whose constructors document a
default model identifier, `create_model` on the minimal config succeeds
with exactly that default; for `"ollama"` it succeeds (when the ollama
client is installed) with the empty model name, no default being
supplied by either the factory or the constructor, and fails at
construction time when the client is missing. -/
theorem C5_defaults_amended :
    (createModel true ⟨some "openai", none, none, none, none⟩).map ModelInstance.model_name =
      Except.ok "gpt-4-vision-preview" ∧
    ctorDefaultModelName "openai" = some "gpt-4-vision-preview" ∧
    (createModel true ⟨some "qwen", none, none, none, none⟩).map ModelInstance.model_name =
      Except.ok "qwen-vl-max" ∧
    ctorDefaultModelName "qwen" = some "qwen-vl-max" ∧
    (createModel true ⟨some "zhipu", none, none, none, none⟩).map ModelInstance.model_name =
      Except.ok "glm-4v" ∧
    ctorDefaultModelName "zhipu" = some "glm-4v" ∧
    (createModel true ⟨some "gemini", none, none, none, none⟩).map ModelInstance.model_name =
      Except.ok "gemini-pro-vision" ∧
    ctorDefaultModelName "gemini" = some "gemini-pro-vision" ∧
    (createModel true ⟨some "anthropic", none, none, none, none⟩).map ModelInstance.model_name =
      Except.ok "claude-3-sonnet-20240229" ∧
    ctorDefaultModelName "anthropic" = some "claude-3-sonnet-20240229" ∧
    (createModel true ⟨some "ollama", none, none, none, none⟩).map ModelInstance.model_name =
      Except.ok "" ∧
    createModel false ⟨some "ollama", none, none, none, none⟩ =
      Except.error "Ollama客户端未安装，请运行: pip install ollama" :=
  ⟨rfl, rfl, rfl, rfl, rfl, rfl, rfl, rfl, rfl, rfl, rfl, rfl⟩

/-- C6 counterexample: `GptV4` does not expose the single-shot
`describe` operation at all, so the claim that every registered variant
exposes all four capability-contract operations fails. -/
theorem C6_cex_missing_ops : ContractOp.describe ∉ exposedOps Variant.gptV4 := by
  decide

/-- C6 amended: only `OllamaCV` exposes all four contract operations
(its non-streaming ones returning `(text, usage)` pairs); the five other
registered variants expose only `describe_with_prompt`, and that
operation returns a bare text string — never a `(text, usage)` pair. -/
theorem C6_contract_amended (img : ImageInput) (r : Except String String)
    (lang image : String) (b : Except String String) :
    exposedOps Variant.ollamaCV =
      [ContractOp.describe, ContractOp.describeWithPrompt, ContractOp.chat,
       ContractOp.chatStreamly] ∧
    exposedOps Variant.gptV4 = [ContractOp.describeWithPrompt] ∧
    exposedOps Variant.qwenCV = [ContractOp.describeWithPrompt] ∧
    exposedOps Variant.zhipu4V = [ContractOp.describeWithPrompt] ∧
    exposedOps Variant.geminiCV = [ContractOp.describeWithPrompt] ∧
    exposedOps Variant.anthropicCV = [ContractOp.describeWithPrompt] ∧
    CVResult.isPair (GptV4_describe_with_prompt img r) = false ∧
    CVResult.isPair (QWenCV_describe_with_prompt img r) = false ∧
    CVResult.isPair (Zhipu4V_describe_with_prompt img r) = false ∧
    CVResult.isPair (GeminiCV_describe_with_prompt img r) = false ∧
    CVResult.isPair (AnthropicCV_describe_with_prompt img r) = false ∧
    CVResult.isPair (OllamaCV_describe lang image b) = true := by
  have hGpt : CVResult.isPair (GptV4_describe_with_prompt img r) = false := by
    cases h : image2base64 img with
    | error e => simp [GptV4_describe_with_prompt, h, CVResult.isPair]
    | ok v => cases r <;> simp [GptV4_describe_with_prompt, h, CVResult.isPair]
  have hGem : CVResult.isPair (GeminiCV_describe_with_prompt img r) = false := by
    cases img <;> cases r <;> rfl
  have hOll : CVResult.isPair (OllamaCV_describe lang image b) = true := by
    unfold OllamaCV_describe
    rw [promptIndexChain_fails lang]
    rfl
  exact ⟨rfl, rfl, rfl, rfl, rfl, rfl, hGpt, hGpt, hGpt, hGem, hGpt, hOll⟩

/-- C7 counterexample: on a conversation whose last user turn has
content `"X"` but whose final turn is an assistant turn with content
`"Y"`, the code rewrites the *final* turn using that turn's own content
— producing `"sYuser query: Y"` rather than the claimed
`s + "X" + "user query: " + "X"`, and leaving the user turn untouched. -/
theorem C7_cex_last_turn :
    applySystem "s" [⟨Role.user, "X", none⟩, ⟨Role.assistant, "Y", none⟩] =
      Except.ok [⟨Role.user, "X", none⟩, ⟨Role.assistant, "sYuser query: Y", none⟩] ∧
    ("sYuser query: Y" : String) ≠ "s" ++ "X" ++ "user query: " ++ "X" :=
  ⟨rfl, by decide⟩

/-- C7 amended: with a non-empty system prompt `s`, `chat` and
`chat_streamly` rewrite the content of the *final* turn of the
conversation — whatever its role — from `C` to
`s + C + "user query: " + C` (so exactly the claimed concatenation when
the conversation ends with the user turn), and an empty system prompt
leaves the conversation unchanged. -/
theorem C7_system_rewrite (s : String) (h : List Turn) (t : Turn) (hs : s ≠ "") :
    applySystem s (h ++ [t]) = Except.ok (h ++ [updLastContent s t]) ∧
    applySystem "" (h ++ [t]) = Except.ok (h ++ [t]) := by
  constructor
  · have hne : (h ++ [t]).isEmpty = false := by cases h <;> rfl
    simp [applySystem, hs, hne, rewriteLast, List.getLast?_concat, List.dropLast_concat]
  · simp [applySystem]

/-- C7 witness: the amended claim at a one-turn conversation ending in
the user turn `"X"` with system prompt `"sys"`. -/
theorem C7_system_rewrite_witness :
    applySystem "sys" ([] ++ [(⟨Role.user, "X", none⟩ : Turn)]) =
      Except.ok ([] ++ [updLastContent "sys" ⟨Role.user, "X", none⟩]) ∧
    applySystem "" ([] ++ [(⟨Role.user, "X", none⟩ : Turn)]) =
      Except.ok ([] ++ [(⟨Role.user, "X", none⟩ : Turn)]) :=
  C7_system_rewrite "sys" [] ⟨Role.user, "X", none⟩ (by decide)

/-- C8: of the four image representations the claim lists,
`image2base64` yields the identical base64 payload for a buffer at any
read position (it is `seek(0)`-reset first) and for raw bytes — but a
decoded image object is *rejected* with
`ValueError("binary must be BytesIO or bytes")`, although the
repository's own test (`test_image2base64`) asserts that a `PIL.Image`
input yields that same payload. -/
theorem C8_image2base64 (d : List Nat) (p : Nat) :
    image2base64 (ImageInput.buffer d p) = Except.ok (b64encode d) ∧
    image2base64 (ImageInput.rawBytes d) = Except.ok (b64encode d) ∧
    image2base64 (ImageInput.pilImage d) = Except.error "binary must be BytesIO or bytes" :=
  ⟨rfl, rfl, rfl⟩

/-- C9 counterexample: after the attachment loop of `chat` /
`chat_streamly` on a conversation with two user turns, the *earlier*
user turn also carries the image attachment, contradicting the claim
that only the last user turn does. -/
theorem C9_cex_earlier_user_turn :
    (applyImages "img" [⟨Role.user, "a", none⟩, ⟨Role.user, "b", none⟩]).get? 0 =
      some ⟨Role.user, "a", some ["img"]⟩ ∧
    (⟨Role.user, "a", some ["img"]⟩ : Turn).images ≠ none :=
  ⟨rfl, by decide⟩

theorem applyImages_zip_all (image : String) (hist : List Turn) :
    ((applyImages image hist).zip hist).all
      (fun q => if q.2.role == Role.user
                then q.1 == (⟨q.2.role, q.2.content, some [image]⟩ : Turn)
                else q.1 == q.2) = true := by
  induction hist with
  | nil => rfl
  | cons a h ih =>
      by_cases ha : a.role = Role.user <;>
        simpa [applyImages, ha] using ih

/-- C9 amended: the attachment loop sets the `"images"` field of *every*
user turn to the singleton `[image]` (contents and roles untouched) and
leaves every non-user turn unchanged; so after `chat` / `chat_streamly`
all user turns — not only the last — carry the attachment. -/
theorem C9_images_amended (image : String) (hist : List Turn) :
    (applyImages image hist).length = hist.length ∧
    ((applyImages image hist).zip hist).all
      (fun q => if q.2.role == Role.user
                then q.1 == (⟨q.2.role, q.2.content, some [image]⟩ : Turn)
                else q.1 == q.2) = true :=
  ⟨by simp [applyImages], applyImages_zip_all image hist⟩
